import Mathlib

/-!
Shallow embedding of the metrics aggregation and streaming core of the
Node.js monitoring dashboard (src/unnamed/part_000, with the simpler
variant in src/server.js where noted).

Conventions:
* JS numbers on the integer-valued counters are modelled as `ℕ`/`ℤ`;
  fractional arithmetic (`/`, `toFixed`, `Math.round`) is modelled over `ℚ`.
* `Math.round` rounds half toward +∞ on finite numbers: `⌊q + 1/2⌋`.
* `x.toFixed(1)` / `x.toFixed(2)` produce the decimal string nearest to x
  (ties toward +∞); we model the numeric value of that string.
* `Infinity` (the initial `minResponseTime`) is modelled as `⊤ : WithTop ℕ`.
* `NaN` results (division 0/0 in the unguarded `cpuUsage` of src/server.js)
  are modelled as `none`.
-/

namespace Monitor

/-- JS `Math.round`: round half toward +∞. -/
def jsRound (q : ℚ) : ℤ := ⌊q + 1/2⌋

/-- Numeric value of JS `x.toFixed(1)` (nearest one-decimal value, ties up). -/
def toFixed1 (q : ℚ) : ℚ := (jsRound (q * 10) : ℚ) / 10

/-- Numeric value of JS `x.toFixed(2)` (nearest two-decimal value, ties up). -/
def toFixed2 (q : ℚ) : ℚ := (jsRound (q * 100) : ℚ) / 100

/-- JS helper `const pct = (a, b) => b ? ((a / b) * 100).toFixed(1) : 0;`
(part_000 line 31). When `b` is 0 it is falsy and the result is `0`. -/
def pct (a b : ℚ) : ℚ := if b = 0 then 0 else toFixed1 (a / b * 100)

/-! ## CpuSampler (part_000 `cpuUsage`, lines 52–71) -/

/-- Cumulative tick counters of one core, as returned by `os.cpus()[i].times`. -/
structure CpuTimes where
  user : ℕ
  sys  : ℕ
  idle : ℕ
  nice : ℕ
  irq  : ℕ
  deriving DecidableEq, Repr

/-- Sum `user + sys + idle + nice + irq` for one core. -/
def CpuTimes.total (c : CpuTimes) : ℤ :=
  (c.user : ℤ) + c.sys + c.idle + c.nice + c.irq

/-- The accumulation loop of `cpuUsage`: for each core `c` at index `i`,
`prev = lastCpu[i]?.times || c.times`, and `idle += curr.idle - prev.idle`,
`total += curr.total - prev.total`. Returns `(idle, total)`. -/
def cpuDiffs : List CpuTimes → ℕ → List CpuTimes → ℤ × ℤ
  | [], _, _ => (0, 0)
  | c :: rest, i, lastCpu =>
      let prev := (lastCpu.get? i).getD c
      let r := cpuDiffs rest (i + 1) lastCpu
      (r.1 + ((c.idle : ℤ) - prev.idle), r.2 + (c.total - prev.total))

/-- Function `cpuUsage()` of part_000: computes the idle/total tick deltas against the
stored `lastCpu`, replaces `lastCpu` with the current reading, and returns
`total > 0 ? Math.round((1 - idle / total) * 100) : 0`.
The pair is (returned percent, new `lastCpu`). -/
def cpuUsage (lastCpu cpus : List CpuTimes) : ℤ × List CpuTimes :=
  let d := cpuDiffs cpus 0 lastCpu
  (if 0 < d.2 then jsRound ((1 - (d.1 : ℚ) / d.2) * 100) else 0, cpus)

/-- The accumulation loop of the src/server.js `cpuUsage` variant: it reads
`lastCpu[i].times` with no `?.`/`||` fallback, so a missing index is a thrown
TypeError, modelled as `none`. -/
def cpuDiffsServer : List CpuTimes → ℕ → List CpuTimes → Option (ℤ × ℤ)
  | [], _, _ => some (0, 0)
  | c :: rest, i, lastCpu =>
      match lastCpu.get? i with
      | none => none
      | some prev =>
          match cpuDiffsServer rest (i + 1) lastCpu with
          | none => none
          | some r =>
              some (r.1 + ((c.idle : ℤ) - prev.idle), r.2 + (c.total - prev.total))

/-- Function `cpuUsage()` of src/server.js (lines 25–44): no zero-total guard, it
returns `Math.round((1 - idle / total) * 100)` unconditionally, which is `NaN`
when `total = 0` (0/0); `none` models both the NaN result and the thrown
lookup error. The pair is (returned percent, new `lastCpu`). -/
def cpuUsageServer (lastCpu cpus : List CpuTimes) : Option ℤ × List CpuTimes :=
  match cpuDiffsServer cpus 0 lastCpu with
  | none => (none, cpus)
  | some d =>
      (if d.2 = 0 then none else some (jsRound ((1 - (d.1 : ℚ) / d.2) * 100)), cpus)

/-! ## HealthClassifier (part_000 `getHealthStatus`, lines 125–129) -/

inductive HealthStatus where
  | CRITICAL
  | WARNING
  | HEALTHY
  deriving DecidableEq, Repr

/-- Function `getHealthStatus(cpu, memPct, diskPct)` of part_000. -/
def getHealthStatus (cpu memPct diskPct : ℚ) : HealthStatus × String :=
  if cpu > 90 ∨ memPct > 90 ∨ diskPct > 95 then (.CRITICAL, "#ef4444")
  else if cpu > 70 ∨ memPct > 70 ∨ diskPct > 80 then (.WARNING, "#f59e0b")
  else (.HEALTHY, "#22c55e")

/-! ## SlidingWindowCounter (part_000 `cleanupOldRequests`, lines 131–135) -/

/-- Prune-then-count for one window: `list.filter(t => now - t < W).length`.
`cleanupOldRequests` applies the filter with `W = 60000` to
`lastMinuteRequests` and `W = 3600000` to `lastHourRequests`; the snapshot
fields `rpm` and `rph` are the lengths of the pruned lists. -/
def countInWindow (W now : ℤ) (l : List ℤ) : ℕ :=
  (l.filter (fun t => now - t < W)).length

/-! ## MetricsState and the request handler (part_000 lines 10–25, 1750–1844) -/

/-- The module-level mutable counters of part_000 (the fields the request
handler and snapshot derivations read and write; `lastCpu` is threaded
separately through `cpuUsage`). `minResponseTime` is initialised to
`Infinity`, modelled as `⊤ : WithTop ℕ`. -/
structure MetricsState where
  requestCount : ℕ
  totalResponseTime : ℕ
  lastRequestTime : Option ℤ
  minResponseTime : WithTop ℕ
  maxResponseTime : ℕ
  errorCount : ℕ
  activeConnections : ℤ
  totalBytesReceived : ℕ
  totalBytesSent : ℕ
  statusCodeCounts : List (String × ℕ)
  requestsPerEndpoint : List (String × ℕ)
  lastMinuteRequests : List ℤ
  lastHourRequests : List ℤ
  deriving DecidableEq, Repr

/-- The initial values of the module-level counters (part_000 lines 12–25). -/
def initialState : MetricsState where
  requestCount := 0
  totalResponseTime := 0
  lastRequestTime := none
  minResponseTime := ⊤
  maxResponseTime := 0
  errorCount := 0
  activeConnections := 0
  totalBytesReceived := 0
  totalBytesSent := 0
  statusCodeCounts := []
  requestsPerEndpoint := []
  lastMinuteRequests := []
  lastHourRequests := []

/-- JS update `obj[key] = (obj[key] || 0) + 1` on a string-keyed count map. -/
def bump (m : List (String × ℕ)) (key : String) : List (String × ℕ) :=
  if m.any (fun p => p.1 = key) then
    m.map (fun p => if p.1 = key then (p.1, p.2 + 1) else p)
  else
    m ++ [(key, 1)]

/-- One request as seen by the `http.createServer` handler: its URL, the
`Date.now()` at arrival, the elapsed milliseconds at response end
(`Date.now() - start`), the request-body bytes eventually accumulated by the
`data`/`end` listeners, and the response-body byte length. -/
structure RequestEvent where
  url : String
  now : ℤ
  elapsed : ℕ
  bytesIn : ℕ
  bytesOut : ℕ
  deriving DecidableEq, Repr

/-- The response-time bookkeeping repeated verbatim in the `/`,
`/api/snapshot` and 404 branches:
`totalResponseTime += elapsed; minResponseTime = Math.min(minResponseTime, elapsed);
maxResponseTime = Math.max(maxResponseTime, elapsed);`. -/
def recordTiming (s : MetricsState) (elapsed : ℕ) : MetricsState :=
  { s with
    totalResponseTime := s.totalResponseTime + elapsed
    minResponseTime := min s.minResponseTime (elapsed : WithTop ℕ)
    maxResponseTime := max s.maxResponseTime elapsed }

/-- The `http.createServer` request handler of part_000 (lines 1750–1844),
restricted to its mutations of `MetricsState`. Every request increments
`requestCount`, sets `lastRequestTime`, pushes `Date.now()` into both window
lists, accumulates `bytesIn` (via the `end` listener) and bumps
`requestsPerEndpoint[url]`; then the URL dispatch decides the rest:
`/` and `/dashboard` and `/api/snapshot` record a 200, response bytes and the
timing; `/events` only increments `activeConnections` and counts the first
bytes of the first SSE frame (payload + 8 framing bytes); `/health` records a 200 and
response bytes but no timing; anything else records a 404, increments
`errorCount` and records the timing (but adds nothing to `totalBytesSent`). -/
def handleRequest (s : MetricsState) (ev : RequestEvent) : MetricsState :=
  let s1 : MetricsState :=
    { s with
      requestCount := s.requestCount + 1
      lastRequestTime := some ev.now
      lastMinuteRequests := s.lastMinuteRequests ++ [ev.now]
      lastHourRequests := s.lastHourRequests ++ [ev.now]
      totalBytesReceived := s.totalBytesReceived + ev.bytesIn
      requestsPerEndpoint := bump s.requestsPerEndpoint ev.url }
  if ev.url = "/" ∨ ev.url = "/dashboard" then
    recordTiming
      { s1 with
        totalBytesSent := s1.totalBytesSent + ev.bytesOut
        statusCodeCounts := bump s1.statusCodeCounts "200" }
      ev.elapsed
  else if ev.url = "/events" then
    { s1 with
      activeConnections := s1.activeConnections + 1
      totalBytesSent := s1.totalBytesSent + ev.bytesOut + 8 }
  else if ev.url = "/api/snapshot" then
    recordTiming
      { s1 with
        totalBytesSent := s1.totalBytesSent + ev.bytesOut
        statusCodeCounts := bump s1.statusCodeCounts "200" }
      ev.elapsed
  else if ev.url = "/health" then
    { s1 with
      totalBytesSent := s1.totalBytesSent + ev.bytesOut
      statusCodeCounts := bump s1.statusCodeCounts "200" }
  else
    recordTiming
      { s1 with
        statusCodeCounts := bump s1.statusCodeCounts "404"
        errorCount := s1.errorCount + 1 }
      ev.elapsed

/-- Run the server handler over a sequence of requests from the initial
module state. -/
def runServer (evs : List RequestEvent) : MetricsState :=
  evs.foldl handleRequest initialState

/-- Whether the dispatch on `url` reaches one of the three branches that
accumulate `totalResponseTime` and update the extrema (`/` or `/dashboard`,
`/api/snapshot`, and the 404 fall-through); `/events` and `/health`
return without touching them. -/
def recordsElapsed (url : String) : Bool :=
  if url = "/" ∨ url = "/dashboard" then true
  else if url = "/events" then false
  else if url = "/api/snapshot" then true
  else if url = "/health" then false
  else true

/-! ## Snapshot derivations (part_000 `getSnapshot`, lines 138–259) -/

/-- Function `cleanupOldRequests()` (lines 131–135): prune both window lists in place,
keeping entries with `now - t < 60000` resp. `now - t < 3600000`. -/
def cleanupOldRequests (now : ℤ) (s : MetricsState) : MetricsState :=
  { s with
    lastMinuteRequests := s.lastMinuteRequests.filter (fun t => now - t < 60000)
    lastHourRequests := s.lastHourRequests.filter (fun t => now - t < 3600000) }

/-- Snapshot field `avgResponseMs` (line 211):
`requestCount ? Math.round(totalResponseTime / requestCount) : 0`. -/
def avgResponseMs (s : MetricsState) : ℤ :=
  if s.requestCount = 0 then 0
  else jsRound ((s.totalResponseTime : ℚ) / s.requestCount)

/-- Snapshot field `minResponseMs` (line 212):
`minResponseTime === Infinity ? 0 : minResponseTime`. -/
def minResponseMs (s : MetricsState) : ℕ :=
  match s.minResponseTime with
  | ⊤ => 0
  | (n : ℕ) => n

/-- Snapshot field `successRate` (line 220):
`pct(requestCount - errorCount, requestCount)`. -/
def successRate (s : MetricsState) : ℚ :=
  pct ((s.requestCount : ℚ) - s.errorCount) s.requestCount

/-- Snapshot field `errorRate` (line 219): `pct(errorCount, requestCount)`. -/
def errorRate (s : MetricsState) : ℚ :=
  pct (s.errorCount : ℚ) s.requestCount

/-- Snapshot field `successCount` (line 218): `requestCount - errorCount`
(JS number subtraction, so modelled in `ℤ`). -/
def successCount (s : MetricsState) : ℤ :=
  (s.requestCount : ℤ) - s.errorCount

/-- Snapshot field `avgLifetimeRpm` (line 208):
`(requestCount / (uptime / 60 || 1)).toFixed(2)`. With `uptime ≥ 0` rational,
`uptime / 60 || 1` is `1` exactly when `uptime / 60 = 0` (falsy) and
`uptime / 60` otherwise. -/
def avgLifetimeRpm (requestCount : ℕ) (uptime : ℚ) : ℚ :=
  toFixed2 ((requestCount : ℚ) / (if uptime / 60 = 0 then 1 else uptime / 60))

/-- The formula of the claim for `avgLifetimeRpm`, written from the words of the spec:
`totalRequests / max(processUptimeSeconds/60, 1)` (for comparison with the
`avgLifetimeRpm` of the code). -/
def specAvgLifetimeRpm (requestCount : ℕ) (uptime : ℚ) : ℚ :=
  (requestCount : ℚ) / max (uptime / 60) 1

/-! ## BroadcastHub (part_000 `/events` branch, lines 1779–1802)

Per-subscriber model of the SSE branch under the single-threaded Node event
loop. The callbacks that can run for one subscriber are: the subscribe body
(`activeConnections++`, one immediate `sendData()` push, `setInterval` arms
the timer), a timer tick (`sendData()` push — only possible while the
interval has not been cleared: after `clearInterval` Node never invokes the
callback again, modelled by `timerActive`), and the single `close` event
(`clearInterval(timer); activeConnections--`). A step returns the new state
and the number of snapshot pushes it emitted to this subscriber. -/

inductive HubEvent where
  | subscribe
  | tick
  | close
  deriving DecidableEq, Repr

structure HubState where
  timerActive : Bool
  activeConnections : ℤ
  deriving DecidableEq, Repr

/-- One event-loop callback for one subscriber of the `/events` branch. -/
def hubStep (s : HubState) (e : HubEvent) : HubState × ℕ :=
  match e with
  | .subscribe =>
      ({ timerActive := true, activeConnections := s.activeConnections + 1 }, 1)
  | .tick =>
      (s, if s.timerActive then 1 else 0)
  | .close =>
      ({ timerActive := false, activeConnections := s.activeConnections - 1 }, 0)

/-- Run a sequence of callbacks, returning the final state and the total
number of pushes emitted. -/
def hubRun : HubState → List HubEvent → HubState × ℕ
  | s, [] => (s, 0)
  | s, e :: tr =>
      let r := hubStep s e
      let rest := hubRun r.1 tr
      (rest.1, r.2 + rest.2)

/-! ## Helper lemmas -/

lemma filter_replicate_of_pos (p : ℤ → Bool) (a : ℤ) (K : ℕ) (h : p a = true) :
    (List.replicate K a).filter p = List.replicate K a := by
  induction K with
  | zero => rfl
  | succ n ih => simp [List.replicate_succ, List.filter_cons, h, ih]

lemma filter_replicate_of_neg (p : ℤ → Bool) (a : ℤ) (K : ℕ) (h : p a = false) :
    (List.replicate K a).filter p = [] := by
  induction K with
  | zero => rfl
  | succ n ih => simp [List.replicate_succ, List.filter_cons, h, ih]

lemma cpuDiffs_unchanged :
    ∀ (l full : List CpuTimes) (i : ℕ),
      (∀ j, j < l.length → full.get? (i + j) = l.get? j) →
      cpuDiffs l i full = (0, 0)
  | [], _, _, _ => rfl
  | c :: rest, full, i, h => by
      have h0 : full.get? i = some c := by
        have h' := h 0 (by simp)
        rwa [Nat.add_zero] at h'
      have hr : cpuDiffs rest (i + 1) full = (0, 0) :=
        cpuDiffs_unchanged rest full (i + 1) (fun j hj => by
          have h' := h (j + 1) (by simpa using Nat.succ_lt_succ hj)
          have hidx : i + (j + 1) = i + 1 + j := by omega
          rwa [hidx, List.get?_cons_succ] at h')
      simp only [cpuDiffs, hr]
      simp only [List.get?_eq_getElem?] at h0
      simp [h0]

lemma cpuDiffs_self (l : List CpuTimes) : cpuDiffs l 0 l = (0, 0) :=
  cpuDiffs_unchanged l l 0 (fun j _ => by simp)

lemma cpuDiffsServer_unchanged :
    ∀ (l full : List CpuTimes) (i : ℕ),
      (∀ j, j < l.length → full.get? (i + j) = l.get? j) →
      cpuDiffsServer l i full = some (0, 0)
  | [], _, _, _ => rfl
  | c :: rest, full, i, h => by
      have h0 : full.get? i = some c := by
        have h' := h 0 (by simp)
        rwa [Nat.add_zero] at h'
      have hr : cpuDiffsServer rest (i + 1) full = some (0, 0) :=
        cpuDiffsServer_unchanged rest full (i + 1) (fun j hj => by
          have h' := h (j + 1) (by simpa using Nat.succ_lt_succ hj)
          have hidx : i + (j + 1) = i + 1 + j := by omega
          rwa [hidx, List.get?_cons_succ] at h')
      simp only [cpuDiffsServer, hr]
      simp only [List.get?_eq_getElem?] at h0
      simp [h0]

lemma cpuDiffsServer_self (l : List CpuTimes) : cpuDiffsServer l 0 l = some (0, 0) :=
  cpuDiffsServer_unchanged l l 0 (fun j _ => by simp)

lemma cpuUsageServer_snd (lastCpu cpus : List CpuTimes) :
    (cpuUsageServer lastCpu cpus).2 = cpus := by
  unfold cpuUsageServer
  cases h : cpuDiffsServer cpus 0 lastCpu <;> simp

lemma handleRequest_requestCount (s : MetricsState) (ev : RequestEvent) :
    (handleRequest s ev).requestCount = s.requestCount + 1 := by
  unfold handleRequest recordTiming
  split_ifs <;> rfl

lemma handleRequest_totalResponseTime (s : MetricsState) (ev : RequestEvent) :
    (handleRequest s ev).totalResponseTime =
      s.totalResponseTime + (if recordsElapsed ev.url then ev.elapsed else 0) := by
  unfold handleRequest recordTiming recordsElapsed
  split_ifs <;> simp_all

lemma handleRequest_minResponseTime (s : MetricsState) (ev : RequestEvent) :
    (handleRequest s ev).minResponseTime =
      (if recordsElapsed ev.url then
        min s.minResponseTime (ev.elapsed : WithTop ℕ)
      else s.minResponseTime) := by
  unfold handleRequest recordTiming recordsElapsed
  split_ifs <;> simp_all

lemma handleRequest_maxResponseTime (s : MetricsState) (ev : RequestEvent) :
    (handleRequest s ev).maxResponseTime =
      (if recordsElapsed ev.url then
        max s.maxResponseTime ev.elapsed
      else s.maxResponseTime) := by
  unfold handleRequest recordTiming recordsElapsed
  split_ifs <;> simp_all

lemma handleRequest_errorCount_le (s : MetricsState) (ev : RequestEvent) :
    (handleRequest s ev).errorCount ≤ s.errorCount + 1 := by
  unfold handleRequest recordTiming
  split_ifs <;> simp

lemma foldl_requestCount :
    ∀ (evs : List RequestEvent) (s : MetricsState),
      (evs.foldl handleRequest s).requestCount = s.requestCount + evs.length
  | [], s => by simp
  | ev :: evs, s => by
      rw [List.foldl_cons, foldl_requestCount evs (handleRequest s ev),
        handleRequest_requestCount]
      simp
      omega

/-- The sum of the elapsed times of the requests whose dispatch branch
accumulates `totalResponseTime` (the `e_1 + ... + e_N` of the spec). -/
def sumElapsedRecorded (evs : List RequestEvent) : ℕ :=
  ((evs.filter (fun ev => recordsElapsed ev.url)).map RequestEvent.elapsed).sum

lemma sumElapsedRecorded_cons (ev : RequestEvent) (evs : List RequestEvent) :
    sumElapsedRecorded (ev :: evs) =
      (if recordsElapsed ev.url then ev.elapsed else 0) + sumElapsedRecorded evs := by
  unfold sumElapsedRecorded
  cases h : recordsElapsed ev.url <;> simp [List.filter_cons, h]

lemma foldl_totalResponseTime :
    ∀ (evs : List RequestEvent) (s : MetricsState),
      (evs.foldl handleRequest s).totalResponseTime =
        s.totalResponseTime + sumElapsedRecorded evs
  | [], s => by simp [sumElapsedRecorded]
  | ev :: evs, s => by
      rw [List.foldl_cons, foldl_totalResponseTime evs (handleRequest s ev),
        handleRequest_totalResponseTime, sumElapsedRecorded_cons]
      omega

lemma foldl_errorCount_le :
    ∀ (evs : List RequestEvent) (s : MetricsState),
      s.errorCount ≤ s.requestCount →
      (evs.foldl handleRequest s).errorCount ≤ (evs.foldl handleRequest s).requestCount
  | [], s, h => h
  | ev :: evs, s, h => by
      rw [List.foldl_cons]
      refine foldl_errorCount_le evs (handleRequest s ev) ?_
      have h1 := handleRequest_errorCount_le s ev
      have h2 := handleRequest_requestCount s ev
      omega

/-- The min/max invariant: whenever the `Infinity` sentinel has been
replaced (some timed request completed), the stored minimum is at most the
stored maximum. -/
def minMaxInv (s : MetricsState) : Prop :=
  s.minResponseTime ≠ ⊤ → s.minResponseTime ≤ (s.maxResponseTime : WithTop ℕ)

lemma handleRequest_minMaxInv (s : MetricsState) (ev : RequestEvent)
    (h : minMaxInv s) : minMaxInv (handleRequest s ev) := by
  unfold minMaxInv at *
  rw [handleRequest_minResponseTime, handleRequest_maxResponseTime]
  cases hrec : recordsElapsed ev.url with
  | false => simpa using h
  | true =>
      simp only [if_true]
      intro _
      exact (min_le_right _ _).trans (WithTop.coe_le_coe.mpr (le_max_right _ _))

lemma foldl_minMaxInv :
    ∀ (evs : List RequestEvent) (s : MetricsState),
      minMaxInv s → minMaxInv (evs.foldl handleRequest s)
  | [], _, h => h
  | ev :: evs, s, h => by
      rw [List.foldl_cons]
      exact foldl_minMaxInv evs (handleRequest s ev) (handleRequest_minMaxInv s ev h)

lemma toFixed1_nonneg (q : ℚ) (h : 0 ≤ q) : 0 ≤ toFixed1 q := by
  unfold toFixed1 jsRound
  have h1 : (0 : ℤ) ≤ ⌊q * 10 + 1 / 2⌋ := Int.floor_nonneg.mpr (by linarith)
  have h2 : (0 : ℚ) ≤ (⌊q * 10 + 1 / 2⌋ : ℚ) := by exact_mod_cast h1
  linarith

lemma toFixed1_le_100 (q : ℚ) (h : q ≤ 100) : toFixed1 q ≤ 100 := by
  unfold toFixed1 jsRound
  have h1 : ⌊q * 10 + 1 / 2⌋ ≤ ⌊(2001 : ℚ) / 2⌋ := Int.floor_le_floor (by linarith)
  have h2 : ⌊(2001 : ℚ) / 2⌋ = 1000 := by norm_num
  have h3 : ((⌊q * 10 + 1 / 2⌋ : ℤ) : ℚ) ≤ 1000 := by exact_mod_cast h1.trans_eq h2
  linarith

lemma pct_bounds (a b : ℚ) (h0 : 0 ≤ a) (hab : a ≤ b) :
    0 ≤ pct a b ∧ pct a b ≤ 100 := by
  unfold pct
  split_ifs with hb
  · norm_num
  · have hbpos : 0 < b := lt_of_le_of_ne (h0.trans hab) (Ne.symm hb)
    have hx0 : 0 ≤ a / b * 100 := by positivity
    have hx1 : a / b * 100 ≤ 100 := by
      have hd : a / b ≤ 1 := (div_le_one hbpos).mpr hab
      linarith
    exact ⟨toFixed1_nonneg _ hx0, toFixed1_le_100 _ hx1⟩

/-- A per-core reading with all tick counters at zero (standing for the
`os.cpus()` reading taken when the module loads). -/
def cpuLoadReading : List CpuTimes := [⟨0, 0, 0, 0, 0⟩]

/-- A later per-core reading in which 100 user ticks (and no idle ticks)
have elapsed since `cpuLoadReading`. -/
def cpuBusyReading : List CpuTimes := [⟨100, 0, 0, 0, 0⟩]

end Monitor

namespace Monitor

/-- C6: For every K ≥ 0, time T and window length W, recording K events at
timestamp T and then counting at time `T + W - 1` returns K, while counting
at `T + W + 1` returns 0; moreover the pruning performed by
`cleanupOldRequests` keeps exactly the entries with `now - t < W`
(discarding exactly those with `now - t ≥ W`), instantiated at the
two windows of the code W = 60000 (`lastMinuteRequests`, whose pruned length is the
snapshot field `rpm`) and W = 3600000 (`lastHourRequests`, pruned length `rph`). -/
theorem slidingWindow_count_boundaries (K : ℕ) (T W now : ℤ) (s : MetricsState) :
    countInWindow W (T + W - 1) (List.replicate K T) = K ∧
    countInWindow W (T + W + 1) (List.replicate K T) = 0 ∧
    (cleanupOldRequests now s).lastMinuteRequests.length =
      countInWindow 60000 now s.lastMinuteRequests ∧
    (cleanupOldRequests now s).lastHourRequests.length =
      countInWindow 3600000 now s.lastHourRequests := by
  refine ⟨?_, ?_, rfl, rfl⟩
  · have h : decide (T + W - 1 - T < W) = true := by
      simp only [decide_eq_true_iff]
      omega
    simp [countInWindow,
      filter_replicate_of_pos (fun t => decide (T + W - 1 - t < W)) T K h]
  · have h : decide (T + W + 1 - T < W) = false := by
      simp only [decide_eq_false_iff_not]
      omega
    simp [countInWindow,
      filter_replicate_of_neg (fun t => decide (T + W + 1 - t < W)) T K h]

/-- C8: The health classifier returns CRITICAL iff cpu>90 or mem>90 or
disk>95; otherwise WARNING iff cpu>70 or mem>70 or disk>80; otherwise
HEALTHY (most severe tier first); and in particular
classify(95,10,10)=CRITICAL, classify(75,10,10)=WARNING,
classify(10,10,10)=HEALTHY. -/
theorem healthClassifier_spec (cpu mem disk : ℚ) :
    ((getHealthStatus cpu mem disk).1 = .CRITICAL ↔
      (cpu > 90 ∨ mem > 90 ∨ disk > 95)) ∧
    ((getHealthStatus cpu mem disk).1 = .WARNING ↔
      (¬(cpu > 90 ∨ mem > 90 ∨ disk > 95) ∧ (cpu > 70 ∨ mem > 70 ∨ disk > 80))) ∧
    ((getHealthStatus cpu mem disk).1 = .HEALTHY ↔
      (¬(cpu > 90 ∨ mem > 90 ∨ disk > 95) ∧ ¬(cpu > 70 ∨ mem > 70 ∨ disk > 80))) ∧
    (getHealthStatus 95 10 10).1 = .CRITICAL ∧
    (getHealthStatus 75 10 10).1 = .WARNING ∧
    (getHealthStatus 10 10 10).1 = .HEALTHY := by
  refine ⟨?_, ?_, ?_, ?_, ?_, ?_⟩
  · unfold getHealthStatus
    split_ifs with h1 h2 <;> simp_all
  · unfold getHealthStatus
    split_ifs with h1 h2 <;> simp_all
  · unfold getHealthStatus
    split_ifs with h1 h2 <;> simp_all
  · norm_num [getHealthStatus]
  · norm_num [getHealthStatus]
  · norm_num [getHealthStatus]

/-- C5 counterexample: The first `cpuUsage()` call does not return 0
unconditionally: with `lastCpu` initialised to the module-load reading
`cpuLoadReading` and the first call observing `cpuBusyReading` (100 user
ticks elapsed between module load and the call), the first call returns
100, not 0. -/
theorem cpuUsage_first_call_counterexample :
    (cpuUsage cpuLoadReading cpuBusyReading).1 = 100 ∧ (100 : ℤ) ≠ 0 := by
  constructor
  · have hd : cpuDiffs cpuBusyReading 0 cpuLoadReading = (0, 100) := by
      simp [cpuDiffs, cpuBusyReading, cpuLoadReading, CpuTimes.total]
    simp only [cpuUsage, hd]
    norm_num [jsRound]
  · decide

/-- C5 amended: `lastCpu` is initialised to a real `os.cpus()` reading at
module load, so the first `cpuUsage()` call computes its delta against the
process-start counters (and stores the current reading for the next call):
it returns 0 when the counters are unchanged since module load, but returns
a genuine busy percentage (e.g. 100) when ticks have elapsed before the
first call. -/
theorem cpuUsage_first_call_amended (c c' : List CpuTimes) :
    (cpuUsage c c').2 = c' ∧
    (cpuUsage c c).1 = 0 ∧
    (cpuUsage cpuLoadReading cpuBusyReading).1 = 100 := by
  refine ⟨rfl, ?_, ?_⟩
  · simp [cpuUsage, cpuDiffs_self]
  · have hd : cpuDiffs cpuBusyReading 0 cpuLoadReading = (0, 100) := by
      simp [cpuDiffs, cpuBusyReading, cpuLoadReading, CpuTimes.total]
    simp only [cpuUsage, hd]
    norm_num [jsRound]

/-- C7: Calling the part_000 `cpuUsage` twice in immediate succession with
no intervening change in the OS tick counters returns 0 on the second call:
after the first call the stored `lastCpu` is the current reading `c1`, so the
total delta of the second call is 0 and the `total > 0` guard yields 0 instead of
dividing by zero. The src/server.js variant has no such guard: its second
call evaluates `Math.round((1 - 0/0) * 100)`, i.e. NaN (`none`). -/
theorem cpuUsage_second_call_zero (c0 c1 : List CpuTimes) :
    (cpuUsage (cpuUsage c0 c1).2 c1).1 = 0 ∧
    (cpuUsageServer (cpuUsageServer c0 c1).2 c1).1 = none := by
  constructor
  · show (cpuUsage c1 c1).1 = 0
    simp [cpuUsage, cpuDiffs_self]
  · rw [cpuUsageServer_snd]
    simp [cpuUsageServer, cpuDiffsServer_self]

/-- A trace with one `/health` request (no elapsed time recorded) and one
404 request with elapsed time 10 ms. -/
def c1Trace : List RequestEvent :=
  [⟨"/health", 0, 0, 0, 0⟩, ⟨"/nope", 0, 10, 0, 0⟩]

/-- C1 counterexample: On a trace with N = 1 completed timed request of
elapsed time 10 (a 404) plus one `/health` request, the snapshot reports
`avgResponseMs = round(10 / 2) = 5`, not `round(Σe_i / N) = round(10 / 1)
= 10`: the denominator is `totalRequests` (all incoming requests), not the
number N of requests whose elapsed time was recorded. -/
theorem avgResponseMs_counterexample :
    ((c1Trace.filter (fun ev => recordsElapsed ev.url)).map RequestEvent.elapsed)
      = [10] ∧
    (runServer c1Trace).requestCount = 2 ∧
    (runServer c1Trace).totalResponseTime = 10 ∧
    avgResponseMs (runServer c1Trace) = 5 ∧
    jsRound ((10 : ℚ) / 1) = 10 ∧ (5 : ℤ) ≠ 10 := by
  have h1 : (runServer c1Trace).requestCount = 2 := by decide
  have h2 : (runServer c1Trace).totalResponseTime = 10 := by decide
  refine ⟨by decide, h1, h2, ?_, by norm_num [jsRound], by decide⟩
  simp only [avgResponseMs, h1, h2]
  norm_num [jsRound]

/-- C1 amended: For every request trace, `totalRequests` counts every
incoming request (including `/events` and `/health`) while
`totalResponseTime` is the sum of the elapsed times of only the timed
branches (`/`, `/dashboard`, `/api/snapshot`, 404), and the snapshot
field `avgResponseMs` is `round(totalResponseTime / totalRequests)` — the
denominator is `totalRequests`, not the number of recorded elapsed times —
and 0 when `totalRequests` is 0. -/
theorem avgResponseMs_denominator (evs : List RequestEvent) :
    (runServer evs).requestCount = evs.length ∧
    (runServer evs).totalResponseTime = sumElapsedRecorded evs ∧
    avgResponseMs (runServer evs) =
      (if evs.length = 0 then 0
       else jsRound ((sumElapsedRecorded evs : ℚ) / evs.length)) := by
  have h1 : (runServer evs).requestCount = evs.length := by
    have h := foldl_requestCount evs initialState
    simpa [runServer, initialState] using h
  have h2 : (runServer evs).totalResponseTime = sumElapsedRecorded evs := by
    have h := foldl_totalResponseTime evs initialState
    simpa [runServer, initialState] using h
  refine ⟨h1, h2, ?_⟩
  simp only [avgResponseMs, h1, h2]

/-- C2 counterexample: In the state with `totalRequests = 0` (e.g. the
initial state) the snapshot field `successRate` is 0, not the 100 the spec
requires: `pct` returns 0 whenever its denominator is falsy. -/
theorem successRate_empty_counterexample :
    (runServer []).requestCount = 0 ∧
    successRate (runServer []) = 0 ∧ ((0 : ℚ) ≠ 100) := by
  refine ⟨rfl, ?_, by norm_num⟩
  simp [runServer, successRate, pct, initialState]

/-- C2 amended: For every state of the metrics counters, `successRate`
equals `100 * (totalRequests - errorCount) / totalRequests` rounded to one
decimal when `totalRequests > 0`, and equals 0 (not 100) when
`totalRequests = 0`; `errorRate` is symmetric
(`100 * errorCount / totalRequests`, 0 at zero requests). -/
theorem rate_formulas (s : MetricsState) :
    successRate s =
      (if s.requestCount = 0 then 0
       else toFixed1 (100 * ((s.requestCount : ℚ) - s.errorCount) / s.requestCount)) ∧
    errorRate s =
      (if s.requestCount = 0 then 0
       else toFixed1 (100 * (s.errorCount : ℚ) / s.requestCount)) := by
  unfold successRate errorRate pct
  constructor
  · simp only [Nat.cast_eq_zero]
    split_ifs with h
    · rfl
    · congr 1
      ring
  · simp only [Nat.cast_eq_zero]
    split_ifs with h
    · rfl
    · congr 1
      ring

/-- A trace with a single `/events` request. -/
def c3Trace : List RequestEvent := [⟨"/events", 0, 0, 0, 0⟩]

/-- C3 counterexample: After a single `/events` request,
`totalRequests = 1 > 0` but `minResponseTime` is still the `Infinity`
sentinel (`⊤`) and `maxResponseTime` is still 0, so the stored minimum is
NOT ≤ the stored maximum: the `/events` branch increments `requestCount`
without updating the extrema. -/
theorem minmax_counterexample :
    0 < (runServer c3Trace).requestCount ∧
    (runServer c3Trace).minResponseTime = ⊤ ∧
    (runServer c3Trace).maxResponseTime = 0 ∧
    ¬ (runServer c3Trace).minResponseTime ≤
        ((runServer c3Trace).maxResponseTime : WithTop ℕ) := by
  decide

/-- C3 amended: In every reachable state in which at least one timed
request has completed (the `Infinity` sentinel has been replaced, i.e.
`minResponseTime ≠ ⊤`), the stored minimum response time is at most the
stored maximum; `totalRequests > 0` alone does not suffice because
`/events` (and `/health`) requests increment `requestCount` without
touching the extrema. -/
theorem minmax_invariant (evs : List RequestEvent)
    (h : (runServer evs).minResponseTime ≠ ⊤) :
    (runServer evs).minResponseTime ≤
      ((runServer evs).maxResponseTime : WithTop ℕ) :=
  foldl_minMaxInv evs initialState (fun h0 => absurd rfl h0) h

/-- Witness for `minmax_invariant`: one 404 request with elapsed 5 ms. -/
theorem minmax_invariant_witness :
    (runServer [⟨"/x", 0, 5, 0, 0⟩]).minResponseTime ≠ ⊤ ∧
    (runServer [⟨"/x", 0, 5, 0, 0⟩]).minResponseTime ≤
      ((runServer [⟨"/x", 0, 5, 0, 0⟩]).maxResponseTime : WithTop ℕ) :=
  ⟨by decide, minmax_invariant [⟨"/x", 0, 5, 0, 0⟩] (by decide)⟩

/-- C4 counterexample: With 10 requests and a process uptime of 30
seconds, the `avgLifetimeRpm` of the code is `10 / (30/60 || 1) = 10 / 0.5 = 20`,
while the specified `totalRequests / max(uptime/60, 1) = 10 / 1 = 10`: for
`0 < uptime/60 < 1` the code divides by `uptime/60`, not by 1. -/
theorem avgLifetimeRpm_counterexample :
    avgLifetimeRpm 10 30 = 20 ∧
    specAvgLifetimeRpm 10 30 = 10 ∧ ((20 : ℚ) ≠ 10) := by
  refine ⟨?_, ?_, by norm_num⟩
  · norm_num [avgLifetimeRpm, toFixed2, jsRound]
  · norm_num [specAvgLifetimeRpm]

/-- C4 amended: The snapshot field `avgLifetimeRpm` is
`totalRequests / (uptime/60 || 1)` (two-decimal rounding): it agrees with
the specified `totalRequests / max(uptime/60, 1)` exactly when `uptime = 0` or
`uptime ≥ 60`, while for `0 < uptime < 60` it divides by `uptime/60 < 1`
(equivalently. it equals `totalRequests * 60 / uptime`) whereas the specified
formula divides by 1 and yields `totalRequests`. -/
theorem avgLifetimeRpm_amended (req : ℕ) (uptime : ℚ) (h0 : 0 ≤ uptime) :
    (uptime = 0 ∨ 60 ≤ uptime →
      avgLifetimeRpm req uptime = toFixed2 (specAvgLifetimeRpm req uptime)) ∧
    (0 < uptime → uptime < 60 →
      avgLifetimeRpm req uptime = toFixed2 ((req : ℚ) * 60 / uptime) ∧
      specAvgLifetimeRpm req uptime = (req : ℚ)) := by
  constructor
  · rintro (h | h)
    · subst h
      norm_num [avgLifetimeRpm, specAvgLifetimeRpm]
    · have h1 : (1 : ℚ) ≤ uptime / 60 := by linarith
      have h2 : uptime / 60 ≠ 0 := by
        intro hz
        rw [hz] at h1
        norm_num at h1
      have h3 : max (uptime / 60) 1 = uptime / 60 := max_eq_left h1
      simp [avgLifetimeRpm, specAvgLifetimeRpm, h2, h3]
  · intro hpos hlt
    have h2 : uptime / 60 ≠ 0 := by positivity
    have h1 : uptime / 60 < 1 := by linarith
    have h3 : max (uptime / 60) 1 = 1 := max_eq_right h1.le
    constructor
    · simp only [avgLifetimeRpm, h2, if_neg h2]
      congr 1
      field_simp
    · simp [specAvgLifetimeRpm, h3]

/-- Witness for `avgLifetimeRpm_amended`: 10 requests, 120 s uptime. -/
theorem avgLifetimeRpm_amended_witness :
    (0 : ℚ) ≤ 120 ∧
    avgLifetimeRpm 10 120 = toFixed2 (specAvgLifetimeRpm 10 120) :=
  ⟨by norm_num,
    (avgLifetimeRpm_amended 10 120 (by norm_num)).1 (Or.inr (by norm_num))⟩

/-- C10: In every reachable state, `errorCount ≤ totalRequests` (the
404 branch increments `errorCount` only within a request handling that
already incremented `requestCount`), so the snapshot field `successCount` is
never negative and `successRate` and `errorRate` always lie in [0, 100]. -/
theorem rates_within_bounds (evs : List RequestEvent) :
    (runServer evs).errorCount ≤ (runServer evs).requestCount ∧
    0 ≤ successCount (runServer evs) ∧
    (0 ≤ successRate (runServer evs) ∧ successRate (runServer evs) ≤ 100) ∧
    (0 ≤ errorRate (runServer evs) ∧ errorRate (runServer evs) ≤ 100) := by
  have hle : (runServer evs).errorCount ≤ (runServer evs).requestCount :=
    foldl_errorCount_le evs initialState (by simp [initialState])
  have hcast : ((runServer evs).errorCount : ℚ) ≤ (runServer evs).requestCount := by
    exact_mod_cast hle
  refine ⟨hle, ?_, ?_, ?_⟩
  · unfold successCount
    have : ((runServer evs).errorCount : ℤ) ≤ (runServer evs).requestCount := by
      exact_mod_cast hle
    omega
  · exact pct_bounds _ _ (by linarith) (by
      have : (0 : ℚ) ≤ (runServer evs).errorCount := by positivity
      linarith)
  · exact pct_bounds _ _ (by positivity) hcast

end Monitor

namespace Monitor

lemma hubRun_fst_append (s : HubState) (l1 l2 : List HubEvent) :
    (hubRun s (l1 ++ l2)).1 = (hubRun (hubRun s l1).1 l2).1 := by
  induction l1 generalizing s with
  | nil => simp [hubRun]
  | cons e l ih => simp [hubRun, ih]

lemma hubRun_ticks (s : HubState) (tr : List HubEvent)
    (h : ∀ e ∈ tr, e = HubEvent.tick) :
    hubRun s tr = (s, if s.timerActive then tr.length else 0) := by
  induction tr with
  | nil => simp [hubRun]
  | cons e l ih =>
      have he : e = HubEvent.tick := h e (by simp)
      subst he
      have hs1 : (hubStep s HubEvent.tick).1 = s := rfl
      rw [hubRun, hs1, ih (fun e hm => h e (List.mem_cons_of_mem _ hm))]
      cases hs : s.timerActive <;> simp [hubStep, hs, Nat.add_comm]

/-- C9: For a subscriber of the `/events` branch: on connect
`activeConnections` is incremented, one snapshot is pushed immediately and
the 2-second interval timer is armed; processing the transport `close`
event runs `clearInterval` and decrements `activeConnections`. Hence after
the close is processed, any further timer callbacks push nothing (a cleared
interval never fires) and `activeConnections` is back to its pre-subscribe
value — in particular subscribing and closing before the first tick
(`mid = []`) pushes nothing after the close. -/
theorem subscriber_close_stops_pushes (a0 : ℤ) (mid post : List HubEvent)
    (hmid : ∀ e ∈ mid, e = HubEvent.tick)
    (hpost : ∀ e ∈ post, e = HubEvent.tick) :
    (hubRun ⟨false, a0⟩ (HubEvent.subscribe :: (mid ++ [HubEvent.close]))).1 =
      ⟨false, a0⟩ ∧
    (hubRun (hubRun ⟨false, a0⟩
        (HubEvent.subscribe :: (mid ++ [HubEvent.close]))).1 post).2 = 0 ∧
    (hubRun (hubRun ⟨false, a0⟩
        (HubEvent.subscribe :: (mid ++ [HubEvent.close]))).1 post).1.activeConnections
      = a0 := by
  have hclosed :
      (hubRun ⟨false, a0⟩ (HubEvent.subscribe :: (mid ++ [HubEvent.close]))).1 =
        ⟨false, a0⟩ := by
    have hstep :
        (hubRun ⟨false, a0⟩ (HubEvent.subscribe :: (mid ++ [HubEvent.close]))).1 =
          (hubRun (⟨true, a0 + 1⟩ : HubState) (mid ++ [HubEvent.close])).1 := rfl
    rw [hstep, hubRun_fst_append, hubRun_ticks _ mid hmid]
    simp [hubRun, hubStep]
  rw [hclosed, hubRun_ticks _ post hpost]
  simp

/-- Witness for `subscriber_close_stops_pushes`: pre-subscribe
`activeConnections = 5`, close before the first tick (`mid = []`), two
timer ticks attempted afterwards. -/
theorem subscriber_close_stops_pushes_witness :
    (∀ e ∈ ([] : List HubEvent), e = HubEvent.tick) ∧
    (∀ e ∈ [HubEvent.tick, HubEvent.tick], e = HubEvent.tick) ∧
    ((hubRun ⟨false, 5⟩ (HubEvent.subscribe :: (([] : List HubEvent) ++ [HubEvent.close]))).1 =
        ⟨false, 5⟩ ∧
      (hubRun (hubRun ⟨false, 5⟩
          (HubEvent.subscribe :: (([] : List HubEvent) ++ [HubEvent.close]))).1
          [HubEvent.tick, HubEvent.tick]).2 = 0 ∧
      (hubRun (hubRun ⟨false, 5⟩
          (HubEvent.subscribe :: (([] : List HubEvent) ++ [HubEvent.close]))).1
          [HubEvent.tick, HubEvent.tick]).1.activeConnections = 5) :=
  ⟨by decide, by decide,
    subscriber_close_stops_pushes 5 [] [HubEvent.tick, HubEvent.tick]
      (by decide) (by decide)⟩

end Monitor
